import Mathlib

/-!
Shallow embedding of the Mental-Health-Assistant check-in core
(`mental_health_checkin_streamlit.py`, `autonomous_agent.py`, `config.py`).
Time is modelled in rational seconds; persisted values and scheduler state
are explicit arguments and results.
-/

namespace MentalHealth

/-- Module constant `CHECK_IN_INTERVAL_HOURS = 3` (streamlit file line 40, config.py line 14). -/
def CHECK_IN_INTERVAL_HOURS : Int := 3

/-- Module constant `INACTIVITY_THRESHOLD_HOURS = 12` (streamlit file line 41). -/
def INACTIVITY_THRESHOLD_HOURS : ℚ := 12

/-- Config constant `MAX_HISTORY_ENTRIES = 1000` (config.py line 147). -/
def MAX_HISTORY_ENTRIES : Nat := 1000

/-- Config constant `MOOD_HISTORY_CONTEXT_SIZE = 3` (config.py line 34). -/
def MOOD_HISTORY_CONTEXT_SIZE : Nat := 3

/-- The `timestamp` field persisted in `last_checkin.json`: either a well-formed
ISO-8601 instant (modelled by its value in seconds) or a malformed raw string. -/
inductive TsValue where
  | iso (seconds : ℚ)
  | malformed (raw : String)
deriving DecidableEq

/-- `datetime.datetime.fromisoformat`: succeeds on a well-formed instant,
raises `ValueError` on a malformed string. -/
def fromisoformat : TsValue → Except String ℚ
  | .iso s => .ok s
  | .malformed raw => .error ("Invalid isoformat string: " ++ raw)

/-- Python truthiness of the loaded `timestamp` value as used by
`if last_checkin:`: the empty string is falsy, any other string truthy. -/
def pyFalsy : TsValue → Bool
  | .iso _ => false
  | .malformed raw => decide (raw = "")

/-- The `enabled` flag of the persisted email configuration (`email_config.json`).
The SMTP transport itself is an external collaborator, modelled by a boolean
outcome passed in. -/
structure EmailConfig where
  enabled : Bool
deriving DecidableEq

/-- `send_email` (streamlit file lines 128-162): returns `False` when email is
not enabled; otherwise the result of the SMTP transport attempt (`True` on
success, `False` when the transport raises). -/
def send_email (config : EmailConfig) (transportOk : Bool) : Bool :=
  if !config.enabled then false
  else transportOk

/-- `send_inactivity_alert` (streamlit file lines 180-196): delegates to `send_email`. -/
def send_inactivity_alert (config : EmailConfig) (transportOk : Bool) : Bool :=
  send_email config transportOk

/-- `check_inactivity` (streamlit file lines 218-228). Reads the marker; a falsy
marker (absent / null / empty) is skipped. Otherwise the timestamp is parsed with
`fromisoformat` (raising on a malformed string), the elapsed hours are compared
against the threshold, and on exceedance the alert is sent (its boolean result
discarded) and the marker is overwritten with `now` via `save_last_checkin`.
Returns the number of alert invocations and the new marker. -/
def check_inactivity (now : ℚ) (marker : Option TsValue) (config : EmailConfig)
    (transportOk : Bool) : Except String (Nat × Option TsValue) :=
  match marker with
  | none => .ok (0, none)
  | some tv =>
    if pyFalsy tv then .ok (0, some tv)
    else
      match fromisoformat tv with
      | .error e => .error e
      | .ok last =>
        let hours_since_checkin : ℚ := (now - last) / 3600
        if hours_since_checkin > INACTIVITY_THRESHOLD_HOURS then
          let _ := send_inactivity_alert config transportOk
          .ok (1, some (TsValue.iso now))
        else
          .ok (0, some tv)

/-- A check-in history entry as persisted in `user_history.json`. The `mood` key
may be absent on loaded data, hence `Option`; reads use `entry.get("mood", "Unknown")`. -/
structure CheckinRecord where
  timestamp : ℚ
  mood : Option String
  response : String
  analysis : String
deriving DecidableEq

/-- `entry.get("mood", "Unknown")`. -/
def moodLabel (e : CheckinRecord) : String := e.mood.getD "Unknown"

/-- The check-in submission path of `main` (streamlit file lines 467-475):
`history.append(new_entry)` followed by `save_user_history(history)`; no trimming. -/
def submitCheckin (history : List CheckinRecord) (entry : CheckinRecord) :
    List CheckinRecord :=
  history ++ [entry]

/-- The stored history after a sequence of check-in submissions starting from an
empty store. -/
def runAppends (entries : List CheckinRecord) : List CheckinRecord :=
  entries.foldl submitCheckin []

/-- The mood-context builder inside `analyze_mood_with_history` (streamlit file
lines 251-264): `history[-3:]` mapped through `entry.get("mood", "Unknown")`,
empty when the history is empty. -/
def recent_moods (history : List CheckinRecord) : List String :=
  if history.isEmpty then []
  else (history.drop (history.length - 3)).map moodLabel

/-- A job registered with the APScheduler instance: its `id`, the callable it
triggers (named by a tag), and the interval in hours. -/
structure Job where
  id : String
  action : String
  interval_hours : Int
deriving DecidableEq

/-- `sub` is a prefix of `s` (character lists). -/
def startsWithCL : List Char → List Char → Bool
  | [], _ => true
  | _ :: _, [] => false
  | a :: as, b :: bs => a = b && startsWithCL as bs

/-- Python substring containment `sub in s` on character lists. -/
def containsSub (sub : List Char) : List Char → Bool
  | [] => sub.isEmpty
  | c :: rest => startsWithCL sub (c :: rest) || containsSub sub rest

/-- `scheduler.remove_job` applied across the loop in `setup_scheduled_emails`:
drops every job whose id contains the given substring. -/
def remove_jobs_containing (jobs : List Job) (sub : String) : List Job :=
  jobs.filter (fun j => !(containsSub sub.toList j.id.toList))

/-- `scheduler.add_job(..., replace_existing=True)`: replaces a job with the
same id if present, otherwise appends the new job. -/
def add_job_replace_existing (jobs : List Job) (j : Job) : List Job :=
  if jobs.any (fun k => k.id == j.id) then
    jobs.map (fun k => if k.id == j.id then j else k)
  else jobs ++ [j]

/-- `setup_scheduled_emails` (streamlit file lines 202-216): removes every job
whose id contains `"checkin_email"`, then adds the check-in email job with
`hours = CHECK_IN_INTERVAL_HOURS` — the module constant, not any
session-selected interval. -/
def setup_scheduled_emails (jobs : List Job) : List Job :=
  add_job_replace_existing (remove_jobs_containing jobs "checkin_email")
    { id := "checkin_email", action := "send_checkin_email",
      interval_hours := CHECK_IN_INTERVAL_HOURS }

/-- The slider-relevant part of Streamlit session state (`st.session_state['interval']`). -/
structure SessionState where
  interval : Int
deriving DecidableEq

/-- The interval-slider handler in `main` (streamlit file lines 398-403): when the
slider value differs from the stored one, the session value is updated and
`setup_scheduled_emails()` is called (which ignores the session value). -/
def sliderChangeInterval (st : SessionState) (jobs : List Job) (newInterval : Int) :
    SessionState × List Job :=
  if newInterval ≠ st.interval then
    ({ interval := newInterval }, setup_scheduled_emails jobs)
  else (st, jobs)

/-- `setup_scheduler` (autonomous_agent.py lines 202-224): a fresh scheduler with
the check-in email job and the six-hourly status-logging job, and nothing else. -/
def setup_scheduler : List Job :=
  add_job_replace_existing
    (add_job_replace_existing []
      { id := "checkin_email", action := "send_checkin_email",
        interval_hours := CHECK_IN_INTERVAL_HOURS })
    { id := "status_log", action := "log_agent_status", interval_hours := 6 }

/-- What the Streamlit entry point (streamlit file lines 583-591) sets up: the
jobs registered with the background scheduler, and the number of direct one-shot
invocations of `check_inactivity` at startup. -/
structure StreamlitStartup where
  jobs : List Job
  sweepRunsAtStartup : Nat
deriving DecidableEq

/-- The Streamlit `__main__` block: `setup_scheduled_emails()` then a single
direct `check_inactivity()` call. -/
def streamlit_startup : StreamlitStartup :=
  { jobs := setup_scheduled_emails [], sweepRunsAtStartup := 1 }

/-- The configuration knobs read by `validate_config` (config.py). -/
structure Config where
  check_in_interval_hours : Int
  inactivity_threshold_hours : Int
  mood_history_context_size : Int
  web_app_url : String
  max_history_entries : Int
deriving DecidableEq

/-- `validate_config` (config.py lines 153-172): collects error strings for the
four checks it performs and raises `ValueError` when any accumulated; returns
`True` otherwise. `MAX_HISTORY_ENTRIES` is nowhere inspected. -/
def validate_config (c : Config) : Except String Bool :=
  let errors : List String :=
    (if ¬ (2 ≤ c.check_in_interval_hours ∧ c.check_in_interval_hours ≤ 5) then
      ["CHECK_IN_INTERVAL_HOURS must be between 2 and 5"] else []) ++
    (if c.inactivity_threshold_hours < 1 then
      ["INACTIVITY_THRESHOLD_HOURS must be at least 1"] else []) ++
    (if c.mood_history_context_size < 1 then
      ["MOOD_HISTORY_CONTEXT_SIZE must be at least 1"] else []) ++
    (if c.web_app_url = "" then
      ["WEB_APP_URL cannot be empty"] else [])
  if errors.isEmpty then .ok true
  else .error ("Configuration errors:\n" ++ String.intercalate "\n" errors)

/-- The fallback keyword list local to `get_mood_from_response` (streamlit file
line 243). -/
def mood_keywords : List String :=
  ["Positive", "Neutral", "Stressed", "Sad", "Anxious",
   "Happy", "Depressed", "Excited", "Tired", "Energetic"]

/-- `MOOD_KEYWORDS` (config.py lines 119-123). -/
def MOOD_KEYWORDS : List String :=
  ["Positive", "Neutral", "Stressed", "Sad", "Anxious",
   "Happy", "Depressed", "Excited", "Tired", "Energetic",
   "Overwhelmed", "Calm", "Frustrated", "Grateful", "Lonely"]

/-- The characters after the first occurrence of `sep`, or `none` when `sep`
does not occur (`sep` nonempty). Together with `segmentUpTo` this realises
`text.split(sep)[1].split("\n")[0]`. -/
def afterFirst (sep : List Char) : List Char → Option (List Char)
  | [] => none
  | c :: rest =>
    if startsWithCL sep (c :: rest) then some (List.drop sep.length (c :: rest))
    else afterFirst sep rest

/-- The characters up to the next occurrence of `sep` or the next newline,
whichever comes first. -/
def segmentUpTo (sep : List Char) : List Char → List Char
  | [] => []
  | c :: rest =>
    if startsWithCL sep (c :: rest) then []
    else if c = '\n' then []
    else c :: segmentUpTo sep rest

/-- Python `str.strip()`: leading and trailing whitespace removed. -/
def stripChars (s : List Char) : List Char :=
  ((s.dropWhile Char.isWhitespace).reverse.dropWhile Char.isWhitespace).reverse

/-- Lower-casing, for the case-insensitive keyword fallback. -/
def lowerCL (s : List Char) : List Char := s.map Char.toLower

/-- `get_mood_from_response` (streamlit file lines 234-249): if `"Mood:"` occurs
in the text, return the stripped text between that occurrence and the next
`"Mood:"` or newline; otherwise return the first keyword whose lower-case form
occurs in the lower-cased text, else `"Unknown"`. -/
def get_mood_from_response (analysis_text : List Char) : List Char :=
  match afterFirst "Mood:".toList analysis_text with
  | some rest => stripChars (segmentUpTo "Mood:".toList rest)
  | none =>
    match mood_keywords.find? (fun k => containsSub (lowerCL k.toList) (lowerCL analysis_text)) with
    | some k => k.toList
    | none => "Unknown".toList

/-- A concrete check-in record used for concrete evaluations. -/
def sampleRecord : CheckinRecord :=
  { timestamp := 0, mood := some "Positive", response := "ok", analysis := "Mood: Positive" }

/-- Characterisation of the sweep on a well-formed marker: alert and marker
overwrite exactly when the elapsed hours exceed the threshold. -/
theorem check_inactivity_iso (now last : ℚ) (cfg : EmailConfig) (tk : Bool) :
    check_inactivity now (some (.iso last)) cfg tk =
      if (now - last) / 3600 > INACTIVITY_THRESHOLD_HOURS
      then .ok (1, some (.iso now)) else .ok (0, some (.iso last)) := by
  rfl

/-- The submission path is a plain append: the stored history after any
sequence of submissions is the full sequence itself. -/
theorem runAppends_eq (entries : List CheckinRecord) : runAppends entries = entries := by
  have h : ∀ acc : List CheckinRecord, entries.foldl submitCheckin acc = acc ++ entries := by
    induction entries with
    | nil => intro acc; simp
    | cons e t ih => intro acc; simp [List.foldl_cons, submitCheckin, ih]
  simpa [runAppends] using h []

/-- Claim C1 (code evaluation at the failing input): the check-in submission
path never trims the history, so after 1001 appends the stored length is 1001,
strictly above `MAX_HISTORY_ENTRIES = 1000`; in general the store holds every
append. -/
theorem unbounded_history_growth :
    (∀ entries : List CheckinRecord, runAppends entries = entries) ∧
    (runAppends (List.replicate 1001 sampleRecord)).length = 1001 ∧
    MAX_HISTORY_ENTRIES < (runAppends (List.replicate 1001 sampleRecord)).length := by
  refine ⟨runAppends_eq, ?_, ?_⟩
  · rw [runAppends_eq, List.length_replicate]
  · rw [runAppends_eq, List.length_replicate]
    norm_num [MAX_HISTORY_ENTRIES]

/-- Claim C2: with threshold 12h and marker 13h before `now`, one sweep fires
exactly one alert and overwrites the marker with `now`; an immediate second
sweep at the same `now` fires zero alerts; and on a well-formed marker the
alert fires exactly when the elapsed hours exceed `INACTIVITY_THRESHOLD_HOURS`. -/
theorem inactivity_debounce (now : ℚ) (cfg : EmailConfig) (tk tk2 : Bool) :
    check_inactivity now (some (.iso (now - 13 * 3600))) cfg tk =
      .ok (1, some (.iso now)) ∧
    check_inactivity now (some (.iso now)) cfg tk2 = .ok (0, some (.iso now)) ∧
    ∀ last : ℚ,
      (check_inactivity now (some (.iso last)) cfg tk = .ok (1, some (.iso now)) ↔
        (now - last) / 3600 > INACTIVITY_THRESHOLD_HOURS) := by
  refine ⟨?_, ?_, ?_⟩
  · rw [check_inactivity_iso, if_pos]
    have h13 : (now - (now - 13 * 3600)) / 3600 = (13 : ℚ) := by ring
    rw [h13, INACTIVITY_THRESHOLD_HOURS]
    norm_num
  · rw [check_inactivity_iso, if_neg]
    have h0 : (now - now) / 3600 = (0 : ℚ) := by ring
    rw [h0, INACTIVITY_THRESHOLD_HOURS]
    norm_num
  · intro last
    rw [check_inactivity_iso]
    by_cases h : (now - last) / 3600 > INACTIVITY_THRESHOLD_HOURS
    · rw [if_pos h]
      exact iff_of_true rfl h
    · rw [if_neg h]
      refine iff_of_false (fun hc => ?_) h
      simp at hc

/-- Claim C3 (code evaluation at the failing input): after start-up
registration, moving the interval slider from 3 to 2 re-registers the single
`checkin_email` job, but its interval is still the module constant 3, not the
newly selected 2. -/
theorem slider_interval_change_ignored :
    (sliderChangeInterval { interval := 3 } (setup_scheduled_emails []) 2).2 =
      [{ id := "checkin_email", action := "send_checkin_email", interval_hours := 3 }] ∧
    (sliderChangeInterval { interval := 3 } (setup_scheduled_emails []) 2).2.map
        Job.interval_hours ≠ [2] := by decide

/-- Claim C4 (counterexample): in the background-service run mode,
`setup_scheduler` registers exactly the reminder job and the status-logging
job — no job triggers the inactivity sweep, refuting that the sweep is
registered as a periodic job in every run mode. -/
theorem no_periodic_inactivity_job :
    setup_scheduler.filter (fun j => j.action == "check_inactivity") = [] ∧
    setup_scheduler.map Job.id = ["checkin_email", "status_log"] := by decide

/-- Claim C4 (amended): the inactivity sweep is registered with the scheduler
in no run mode: the background service schedules only `checkin_email` and
`status_log`, and the Streamlit entry point schedules only `checkin_email`
while invoking the sweep directly exactly once at startup. -/
theorem inactivity_sweep_never_scheduled :
    setup_scheduler.map Job.id = ["checkin_email", "status_log"] ∧
    setup_scheduler.all (fun j => j.action != "check_inactivity") = true ∧
    streamlit_startup.jobs.map Job.id = ["checkin_email"] ∧
    streamlit_startup.jobs.all (fun j => j.action != "check_inactivity") = true ∧
    streamlit_startup.sweepRunsAtStartup = 1 := by decide

/-- Claim C5: the mood-context builder returns the labels of the 3 most recent
records in chronological order on a history of 5, the empty sequence on an
empty history, and its output length is at most the window size (3) and at
most the history length. -/
theorem mood_context_window :
    (∀ r1 r2 r3 r4 r5 : CheckinRecord,
      recent_moods [r1, r2, r3, r4, r5] = [moodLabel r3, moodLabel r4, moodLabel r5]) ∧
    recent_moods [] = [] ∧
    ∀ history : List CheckinRecord,
      (recent_moods history).length ≤ MOOD_HISTORY_CONTEXT_SIZE ∧
      (recent_moods history).length ≤ history.length := by
  refine ⟨fun r1 r2 r3 r4 r5 => rfl, rfl, fun history => ?_⟩
  unfold recent_moods
  by_cases h : history.isEmpty
  · simp [h, MOOD_HISTORY_CONTEXT_SIZE]
  · rw [if_neg (by simp [h])]
    simp only [List.length_map, List.length_drop, MOOD_HISTORY_CONTEXT_SIZE]
    omega

/-- Claim C6 (counterexample): a sweep over a persisted marker whose timestamp
is the malformed string `"not-a-timestamp"` raises the parse error instead of
treating the marker as absent. -/
theorem malformed_marker_raises :
    check_inactivity 0 (some (.malformed "not-a-timestamp")) { enabled := false } false =
      .error "Invalid isoformat string: not-a-timestamp" := by rfl

/-- Claim C6 (amended): for every non-empty malformed timestamp string, the
sweep propagates the parse error (no alert fires, no marker is written, and no
recovery to the absent/default case happens). -/
theorem malformed_marker_error (now : ℚ) (cfg : EmailConfig) (tk : Bool)
    (s : String) (h : s ≠ "") :
    check_inactivity now (some (.malformed s)) cfg tk =
      .error ("Invalid isoformat string: " ++ s) := by
  simp [check_inactivity, pyFalsy, fromisoformat, h]

/-- Claim C6 (witness for the amended theorem). -/
theorem malformed_marker_error_witness :
    ("x" : String) ≠ "" ∧
    check_inactivity 0 (some (.malformed "x")) { enabled := true } true =
      .error ("Invalid isoformat string: " ++ "x") :=
  ⟨by decide, malformed_marker_error 0 { enabled := true } true "x" (by decide)⟩

/-- Claim C7 (counterexample): with every knob the claim lists valid except a
history cap of 0, `validate_config` succeeds — the history cap is never
validated, so the claimed "error iff some listed knob is invalid" fails. -/
theorem history_cap_not_validated :
    validate_config
        { check_in_interval_hours := 3, inactivity_threshold_hours := 12,
          mood_history_context_size := 3, web_app_url := "http://localhost:8501",
          max_history_entries := 0 } = .ok true ∧
    (0 : Int) < 1 := by
  exact ⟨rfl, by decide⟩

/-- Claim C7 (amended): `validate_config` succeeds exactly when the reminder
interval lies in 2–5, the inactivity threshold is at least 1, the mood-context
window size is at least 1, and the web-app URL is non-empty; the history cap is
not inspected, and invalid values raise rather than being clamped. -/
theorem validate_config_ok_iff (c : Config) :
    (validate_config c).isOk = true ↔
      (2 ≤ c.check_in_interval_hours ∧ c.check_in_interval_hours ≤ 5) ∧
      1 ≤ c.inactivity_threshold_hours ∧
      1 ≤ c.mood_history_context_size ∧
      c.web_app_url ≠ "" := by
  have e2 : c.inactivity_threshold_hours < 1 ↔ ¬ 1 ≤ c.inactivity_threshold_hours := by
    omega
  have e3 : c.mood_history_context_size < 1 ↔ ¬ 1 ≤ c.mood_history_context_size := by
    omega
  by_cases h1 : 2 ≤ c.check_in_interval_hours ∧ c.check_in_interval_hours ≤ 5 <;>
    by_cases h2 : 1 ≤ c.inactivity_threshold_hours <;>
      by_cases h3 : 1 ≤ c.mood_history_context_size <;>
        by_cases h4 : c.web_app_url = "" <;>
          simp [validate_config, Except.isOk, Except.toBool, e2, e3, h1, h2, h3, h4]

/-- Claim C8 (counterexample): with `"Mood:"` present in the analysis text, the
stored label is arbitrary free text — `"Ecstatic"` is stored though it belongs
to neither keyword list and is not `"Unknown"`, and a newline right after the
tag stores the empty label. -/
theorem mood_label_free_text :
    get_mood_from_response "Mood: Ecstatic".toList = "Ecstatic".toList ∧
    "Ecstatic" ∉ mood_keywords ∧ "Ecstatic" ∉ MOOD_KEYWORDS ∧
    "Ecstatic" ≠ "Unknown" ∧
    get_mood_from_response "Mood:\nfeeling fine".toList = [] := by decide

/-- Claim C8 (amended): when the analysis text does not contain `"Mood:"`, the
stored label is a member of the fixed fallback keyword list or `"Unknown"`,
hence non-empty; only the `"Mood:"` branch can store arbitrary or empty text. -/
theorem mood_fallback_in_keyword_set (text : List Char)
    (h : afterFirst "Mood:".toList text = none) :
    (get_mood_from_response text ∈ mood_keywords.map String.toList ∨
      get_mood_from_response text = "Unknown".toList) ∧
    get_mood_from_response text ≠ [] := by
  unfold get_mood_from_response
  rw [h]
  cases hf : mood_keywords.find? (fun k => containsSub (lowerCL k.toList) (lowerCL text)) with
  | none => exact ⟨Or.inr rfl, by decide⟩
  | some k =>
    have hk : k ∈ mood_keywords := List.mem_of_find?_eq_some hf
    refine ⟨Or.inl (List.mem_map_of_mem _ hk), ?_⟩
    fin_cases hk <;> decide

/-- Claim C8 (witness for the amended theorem). -/
theorem mood_fallback_in_keyword_set_witness :
    afterFirst "Mood:".toList "i am happy".toList = none ∧
    ((get_mood_from_response "i am happy".toList ∈ mood_keywords.map String.toList ∨
        get_mood_from_response "i am happy".toList = "Unknown".toList) ∧
      get_mood_from_response "i am happy".toList ≠ []) :=
  ⟨by decide, mood_fallback_in_keyword_set "i am happy".toList (by decide)⟩

/-- Claim C9: on an absent marker (fresh install: file missing or null
timestamp) the sweep fires no alert and leaves the marker unchanged. -/
theorem fresh_install_quiet (now : ℚ) (cfg : EmailConfig) (tk : Bool) :
    check_inactivity now none cfg tk = .ok (0, none) := rfl

/-- Claim C10: whenever the elapsed hours exceed the threshold, the marker is
overwritten with `now` for every email configuration and transport outcome —
in particular when notifications are disabled, where the send returns failure
yet the debounce still happens. -/
theorem marker_overwritten_even_if_send_fails (now last : ℚ) (cfg : EmailConfig)
    (tk : Bool) (h : (now - last) / 3600 > INACTIVITY_THRESHOLD_HOURS) :
    check_inactivity now (some (.iso last)) cfg tk = .ok (1, some (.iso now)) ∧
    send_inactivity_alert { enabled := false } tk = false := by
  exact ⟨by rw [check_inactivity_iso, if_pos h], rfl⟩

/-- Claim C10 (witness): threshold exceeded by one hour, notifications
disabled and transport failing — the marker is still overwritten. -/
theorem marker_overwritten_even_if_send_fails_witness :
    ((46800 : ℚ) - 0) / 3600 > INACTIVITY_THRESHOLD_HOURS ∧
    (check_inactivity 46800 (some (.iso 0)) { enabled := false } false =
        .ok (1, some (.iso 46800)) ∧
      send_inactivity_alert { enabled := false } false = false) :=
  ⟨by norm_num [INACTIVITY_THRESHOLD_HOURS],
   marker_overwritten_even_if_send_fails 46800 0 { enabled := false } false
     (by norm_num [INACTIVITY_THRESHOLD_HOURS])⟩

end MentalHealth
